import Mathlib

/-!
  # Verification of the smartnode local wallet facade

  A shallow embedding of `shared/services/wallet/local-wallet.go`: the
  `LocalWallet` facade, its encrypted store record, and the lifecycle
  operations `loadStore` / `Reload`, `initializeStore`, `Initialize`,
  `Recover`, `TestRecovery`, `Save`, and `Delete`.

  Modelling choices, each tied to the Go source:

  * The external cryptographic libraries (go-bip39, btcd hdkeychain, the
    eth2 keystorev4 encryptor) are pure collaborators from the wallet's
    point of view; they are gathered into a `CryptoEnv` record of
    functions, with `Option` results where the Go call returns
    `(value, error)` and hands back `nil` on error, exactly as the call
    sites in `local-wallet.go` observe them.
  * `uuid.New()` and mnemonic-entropy generation are randomness; each
    call site takes the drawn value as an explicit oracle argument.
  * The password manager collaborator (`w.pm.GetPassword()`) is modelled
    as an `Option Password` argument: `some p` when the call succeeds.
  * The wallet file on disk is modelled at the record level: `none` when
    the file does not exist (the `os.ReadFile` error branch), and
    otherwise either bytes that fail `json.Unmarshal` (`Except.error ()`)
    or bytes that decode to a store record (`Except.ok s`). Every
    operation threads the disk value through so read-only behaviour is a
    provable fact, not an omission.
  * Go methods mutate the receiver; here each operation maps the prior
    `WalletState` (and disk) to the new one, making the exact order of
    field assignments from the source — including assignments that land
    before an error return — visible to the theorems.
-/

namespace Smartnode

/-- Raw byte strings (seeds, marshalled stores) as lists of byte values. -/
abbrev Bytes := List Nat

/-- Passwords handed over by the password-manager collaborator. -/
abbrev Password := String

/-- The scheme-specific encrypted blob stored in the `crypto` field of the
wallet store (`map[string]interface{}` in Go), at the level the wallet
inspects it: an opaque value passed to the encryptor. -/
abbrev CryptoBlob := List Nat

/-- A BIP-32 extended master key, at the level the wallet inspects it: an
opaque value produced by `hdkeychain.NewMaster`. -/
abbrev MasterKey := List Nat

/-- The pure external collaborators of `local-wallet.go`, as its call sites
observe them: BIP-39 mnemonic validation and seed derivation, BIP-32 master
key creation, and the keystorev4 encryptor. A Go call returning
`(value, error)` whose error branch yields a `nil` value is an `Option`. -/
structure CryptoEnv where
  /-- `bip39.IsMnemonicValid`. -/
  isMnemonicValid : String → Bool
  /-- `bip39.NewSeed(mnemonic, "")`: deterministic seed derivation. -/
  newSeed : String → Bytes
  /-- `hdkeychain.NewMaster(seed, &chaincfg.MainNetParams)`: `none` models
  the error return, where the Go call also hands back a `nil` key. -/
  newMaster : Bytes → Option MasterKey
  /-- `encryptor.Encrypt(seed, password)`: `none` models the error return. -/
  encrypt : Bytes → Password → Option CryptoBlob
  /-- `encryptor.Decrypt(crypto, password)`: the argument is the store's
  `crypto` field, `none` when the Go map is nil/empty; the result is `none`
  on any decryption failure, where the Go call hands back a `nil` seed. -/
  decrypt : Option CryptoBlob → Password → Option Bytes
  /-- `encryptor.Name()`. -/
  encName : String
  /-- `encryptor.Version()`. -/
  encVersion : Nat

/-- `DefaultNodeKeyPath` from the config block of `local-wallet.go`. -/
def DefaultNodeKeyPath : String := "m/44'/60'/0'/0/%d"

/-- The persisted wallet store record (`localWalletStore` in Go).
`Crypto` is `none` when the Go `map[string]interface{}` is nil — the JSON
zero value, and what `TestRecovery` leaves behind. `UUID` is the store
instance identifier, opaque to the wallet. -/
structure localWalletStore where
  Crypto : Option CryptoBlob
  Name : String
  Version : Nat
  UUID : Nat
  DerivationPath : String
  WalletIndex : Nat
  NextAccount : Nat
deriving DecidableEq, Repr

/-- The zero value of `localWalletStore`, produced by
`w.ws = new(localWalletStore)` before `json.Unmarshal` runs. -/
def zeroStore : localWalletStore :=
  { Crypto := none, Name := "", Version := 0, UUID := 0,
    DerivationPath := "", WalletIndex := 0, NextAccount := 0 }

/-- The mutable in-memory state of a `LocalWallet`: the store record, the
decrypted seed, the master key, and the two derived-key caches. Fields are
`Option`/empty exactly when the Go pointer fields are nil or the maps empty.
The immutable configuration fields (`walletPath`, chain id, gas settings,
collaborator handles) are not part of the mutable state. -/
structure WalletState where
  mkWalletState ::
  ws : Option localWalletStore
  seed : Option Bytes
  mk : Option MasterKey
  nodeKey : Option Nat
  nodeKeyPath : String
  validatorKeys : List (Nat × Nat)
deriving DecidableEq, Repr

/-- The in-memory state `NewLocalWallet` builds before its `loadStore`
call: nil store, seed, master key and node key, empty validator cache. -/
def freshWallet : WalletState :=
  { ws := none, seed := none, mk := none, nodeKey := none,
    nodeKeyPath := "", validatorKeys := [] }

/-- A wallet file on disk: `Except.error ()` is a file whose bytes fail
`json.Unmarshal`; `Except.ok s` is a file that decodes to the record `s`.
A missing file is `none` at the use sites (`Option DiskFile`). -/
abbrev DiskFile := Except Unit localWalletStore

/-- `LocalWallet.IsInitialized`: the store, seed and master key pointers
are all non-nil. -/
def IsInitialized (w : WalletState) : Bool :=
  w.ws.isSome && w.seed.isSome && w.mk.isSome

/-- `LocalWallet.loadStore`: read the wallet file, decode it, default the
legacy derivation path, fetch the password, decrypt the seed, and build the
master key — returning `(loaded?, error)` as `Except String Bool` and
assigning receiver fields in exactly the source order, including the
assignments Go performs before an error return (`w.ws = new(...)` before
`Unmarshal`; `w.seed`/`w.mk` set to the nil value a failed library call
hands back). The disk is returned untouched: the function only reads. -/
def loadStore (env : CryptoEnv) (pw : Option Password)
    (disk : Option DiskFile) (w : WalletState) :
    WalletState × Option DiskFile × Except String Bool :=
  match disk with
  | none => (w, disk, Except.ok false)
  | some (Except.error _) =>
      ({ w with ws := some zeroStore }, disk,
        Except.error "Could not decode wallet")
  | some (Except.ok s0) =>
      let s := if s0.DerivationPath = "" then
                 { s0 with DerivationPath := DefaultNodeKeyPath }
               else s0
      let w1 := { w with ws := some s }
      match pw with
      | none => (w1, disk, Except.error "Could not get wallet password")
      | some password =>
          match env.decrypt s.Crypto password with
          | none =>
              ({ w1 with seed := none }, disk,
                Except.error "Could not decrypt wallet seed")
          | some seed =>
              let w2 := { w1 with seed := some seed }
              match env.newMaster seed with
              | none =>
                  ({ w2 with mk := none }, disk,
                    Except.error "Could not create wallet master key")
              | some mk =>
                  ({ w2 with mk := some mk }, disk, Except.ok true)

/-- `LocalWallet.Reload`: delegate to `loadStore`, discard the boolean. -/
def Reload (env : CryptoEnv) (pw : Option Password)
    (disk : Option DiskFile) (w : WalletState) :
    WalletState × Option DiskFile × Except String Unit :=
  match loadStore env pw disk w with
  | (w1, d1, Except.error e) => (w1, d1, Except.error e)
  | (w1, d1, Except.ok _) => (w1, d1, Except.ok ())

/-- `NewLocalWallet`: build the fresh state and run `loadStore`; the
constructor fails (returns `nil`) exactly when `loadStore` errors. -/
def NewLocalWallet (env : CryptoEnv) (pw : Option Password)
    (disk : Option DiskFile) : Except String WalletState :=
  match loadStore env pw disk freshWallet with
  | (_, _, Except.error e) => Except.error e
  | (w, _, Except.ok _) => Except.ok w

/-- `LocalWallet.initializeStore`: derive the seed and master key from the
mnemonic, fetch the password, encrypt the seed, and install a fresh store
record, assigning receiver fields in source order (seed and master key are
set before the password fetch and encryption can fail). `newUuid` is the
value `uuid.New()` draws. -/
def initializeStore (env : CryptoEnv) (pw : Option Password) (newUuid : Nat)
    (derivationPath : String) (walletIndex : Nat) (mnemonic : String)
    (w : WalletState) : WalletState × Except String Unit :=
  let seed := env.newSeed mnemonic
  let w1 := { w with seed := some seed }
  match env.newMaster seed with
  | none =>
      ({ w1 with mk := none },
        Except.error "Could not create wallet master key")
  | some mk =>
      let w2 := { w1 with mk := some mk }
      match pw with
      | none => (w2, Except.error "Could not get wallet password")
      | some password =>
          match env.encrypt seed password with
          | none => (w2, Except.error "Could not encrypt wallet seed")
          | some encryptedSeed =>
              let s : localWalletStore :=
                { Crypto := some encryptedSeed,
                  Name := env.encName,
                  Version := env.encVersion,
                  UUID := newUuid,
                  DerivationPath := derivationPath,
                  WalletIndex := walletIndex,
                  NextAccount := 0 }
              ({ w2 with ws := some s }, Except.ok ())

/-- `LocalWallet.Initialize`: reject if already initialized, generate a
mnemonic (`genMnemonic` is the oracle for the entropy draw and encoding,
`none` when the entropy source fails), and delegate to `initializeStore`,
returning the mnemonic on success. -/
def Initialize (env : CryptoEnv) (pw : Option Password) (newUuid : Nat)
    (genMnemonic : Option String) (derivationPath : String)
    (walletIndex : Nat) (w : WalletState) :
    WalletState × Except String String :=
  if IsInitialized w then
    (w, Except.error "Wallet is already initialized")
  else
    match genMnemonic with
    | none =>
        (w, Except.error "Could not generate wallet mnemonic entropy bytes")
    | some mnemonic =>
        match initializeStore env pw newUuid derivationPath walletIndex
            mnemonic w with
        | (w1, Except.error e) => (w1, Except.error e)
        | (w1, Except.ok _) => (w1, Except.ok mnemonic)

/-- `LocalWallet.Recover`: reject if already initialized, reject an invalid
mnemonic, and delegate to `initializeStore`. -/
def Recover (env : CryptoEnv) (pw : Option Password) (newUuid : Nat)
    (derivationPath : String) (walletIndex : Nat) (mnemonic : String)
    (w : WalletState) : WalletState × Except String Unit :=
  if IsInitialized w then
    (w, Except.error "Wallet is already initialized")
  else if !(env.isMnemonicValid mnemonic) then
    (w, Except.error "Invalid mnemonic")
  else
    initializeStore env pw newUuid derivationPath walletIndex mnemonic w

/-- `LocalWallet.TestRecovery`: validate the mnemonic, derive seed and
master key, and install a store record whose `Crypto` field is never set
(the Go struct literal omits it, leaving the nil map) — with no
already-initialized check and no encryption or password fetch. -/
def TestRecovery (env : CryptoEnv) (newUuid : Nat) (derivationPath : String)
    (walletIndex : Nat) (mnemonic : String) (w : WalletState) :
    WalletState × Except String Unit :=
  if !(env.isMnemonicValid mnemonic) then
    (w, Except.error "Invalid mnemonic")
  else
    let seed := env.newSeed mnemonic
    let w1 := { w with seed := some seed }
    match env.newMaster seed with
    | none =>
        ({ w1 with mk := none },
          Except.error "Could not create wallet master key")
    | some mk =>
        let s : localWalletStore :=
          { Crypto := none,
            Name := env.encName,
            Version := env.encVersion,
            UUID := newUuid,
            DerivationPath := derivationPath,
            WalletIndex := walletIndex,
            NextAccount := 0 }
        ({ w1 with mk := some mk, ws := some s }, Except.ok ())

/-- `LocalWallet.Save`, success path: require `IsInitialized`, marshal the
store record, and write it to the wallet path — replacing whatever the file
held (`os.WriteFile` opens the target itself with `O_TRUNC`). In-memory
state is untouched; the failure semantics of the single write call are
modelled separately by `saveFailureOutcomes`. -/
def Save (disk : Option DiskFile) (w : WalletState) :
    Option DiskFile × Except String Unit :=
  match w.ws, w.seed, w.mk with
  | some s, some _, some _ => (some (Except.ok s), Except.ok ())
  | _, _, _ => (disk, Except.error "Wallet is not initialized")

/-- The byte-level failure semantics of `Save`'s one filesystem call,
`os.WriteFile(w.walletPath, wsBytes, FileMode)`: the target file itself is
opened with `O_TRUNC` and the marshalled bytes are then written, so if the
write fails or is interrupted partway the file holds some proper prefix of
the new bytes — the prior contents are already gone. `Save` uses no
temporary file and no rename. -/
def saveFailureOutcomes (wsBytes : Bytes) : List (Option Bytes) :=
  (List.range wsBytes.length).map (fun k => some (wsBytes.take k))

/-- The failure semantics the spec's write-temp-then-rename discipline
would give `Save` (modelled from the spec for comparison): the new bytes go
to a temporary file and a rename installs them, so a failure leaves either
the old contents or the complete new contents. -/
def atomicSaveFailureOutcomes (old : Option Bytes) (wsBytes : Bytes) :
    List (Option Bytes) :=
  [old, some wsBytes]

/-- `LocalWallet.Delete`: stat the wallet path — a missing file is success
and a no-op — otherwise remove it. Only the disk changes; the wallet's
in-memory state is not touched. -/
def Delete (disk : Option DiskFile) (w : WalletState) :
    WalletState × Option DiskFile × Except String Unit :=
  match disk with
  | none => (w, none, Except.ok ())
  | some _ => (w, none, Except.ok ())

/-- A concrete environment for evaluating the operations on closed inputs:
every mnemonic except "bad" is valid, the seed is the mnemonic's length,
master-key creation echoes the seed, encryption echoes the seed, and
decryption succeeds exactly for the blob under password "pw". -/
def env0 : CryptoEnv :=
  { isMnemonicValid := fun m => m ≠ "bad",
    newSeed := fun m => [m.length],
    newMaster := fun s => some s,
    encrypt := fun s _ => some s,
    decrypt := fun c p =>
      match c, p with
      | some b, "pw" => some b
      | _, _ => none,
    encName := "scrypt-keystore",
    encVersion := 4 }

/-- A concrete persisted store record: blob `[1, 2]`, the default path. -/
def s0 : localWalletStore :=
  { Crypto := some [1, 2], Name := "scrypt-keystore", Version := 4,
    UUID := 7, DerivationPath := "m/44'/60'/0'/0/%d", WalletIndex := 0,
    NextAccount := 0 }

/-- A concrete fully-initialized in-memory wallet: store `s0`, seed and
master key loaded, a cached node key and one cached validator key. -/
def w0 : WalletState :=
  { ws := some s0, seed := some [9], mk := some [9], nodeKey := some 7,
    nodeKeyPath := "p", validatorKeys := [(0, 5)] }

/-- `s0` relabelled with an encryption scheme name and version no encryptor
of this system supports. -/
def sBogus : localWalletStore :=
  { s0 with Name := "totally-bogus", Version := 999 }

/-! ## C1 — failed decryption during Reload -/

/-- Claim C1 fails on the code: reloading the initialized wallet `w0` from
a store whose seed does not decrypt (wrong password `"xx"`) returns the
decryption error, yet the master key, the cached node key and the cached
validator key all survive untouched, and the store record has already been
replaced by the newly decoded one — the caches were not dropped first and
the in-memory state is partially repopulated. -/
theorem C1_counterexample :
    (loadStore env0 (some "xx") (some (Except.ok s0)) w0).2.2 =
      Except.error "Could not decrypt wallet seed"
    ∧ (loadStore env0 (some "xx") (some (Except.ok s0)) w0).1.mk = some [9]
    ∧ (loadStore env0 (some "xx") (some (Except.ok s0)) w0).1.nodeKey = some 7
    ∧ (loadStore env0 (some "xx") (some (Except.ok s0)) w0).1.validatorKeys
        = [(0, 5)]
    ∧ (loadStore env0 (some "xx") (some (Except.ok s0)) w0).1.ws = some s0 :=
  ⟨rfl, rfl, rfl, rfl, rfl⟩

/-- Claim C1 amended: when the seed fails to decrypt, `loadStore` (and so
`Reload`) returns the decryption error and the facade reports
not-initialized — but only because the failed decryption assignment left a
nil seed. The caches are not dropped first: the master key, node-key cache
and validator-key cache keep their prior values, and the store record has
already been overwritten by the freshly decoded (path-defaulted) one, so
the in-memory state is partially updated rather than cleared. -/
theorem C1_reload_decrypt_failure (env : CryptoEnv) (password : Password)
    (s : localWalletStore) (w : WalletState)
    (h : env.decrypt s.Crypto password = none) :
    (loadStore env (some password) (some (Except.ok s)) w).2.2 =
      Except.error "Could not decrypt wallet seed"
    ∧ (loadStore env (some password) (some (Except.ok s)) w).1.seed = none
    ∧ (loadStore env (some password) (some (Except.ok s)) w).1.mk = w.mk
    ∧ (loadStore env (some password) (some (Except.ok s)) w).1.nodeKey
        = w.nodeKey
    ∧ (loadStore env (some password) (some (Except.ok s)) w).1.validatorKeys
        = w.validatorKeys
    ∧ (loadStore env (some password) (some (Except.ok s)) w).1.ws =
        some (if s.DerivationPath = "" then
                { s with DerivationPath := DefaultNodeKeyPath }
              else s)
    ∧ IsInitialized
        (loadStore env (some password) (some (Except.ok s)) w).1 = false := by
  have hc : (if s.DerivationPath = "" then
      { s with DerivationPath := DefaultNodeKeyPath } else s).Crypto
      = s.Crypto := by
    split <;> rfl
  simp [loadStore, hc, h, IsInitialized]

/-- Witness for `C1_reload_decrypt_failure` at the concrete inputs of the
counterexample scenario. -/
theorem C1_reload_decrypt_failure_witness :
    env0.decrypt s0.Crypto "xx" = none
    ∧ (loadStore env0 (some "xx") (some (Except.ok s0)) w0).1.mk = w0.mk :=
  ⟨rfl, (C1_reload_decrypt_failure env0 "xx" s0 w0 rfl).2.2.1⟩

/-! ## C2 — Save is a direct truncating write, not temp-then-rename -/

/-- Claim C2 fails on the code: `Save`'s single `os.WriteFile` call
truncates the target before writing, so with prior file contents
`[1, 2, 3]` and new marshalled bytes `[9, 9]` a failure mid-write can
leave the empty file — an outcome `saveFailureOutcomes` contains but the
write-temp-then-rename discipline (`atomicSaveFailureOutcomes`) never
produces. The previously persisted contents do not survive. -/
theorem C2_counterexample :
    some ([] : Bytes) ∈ saveFailureOutcomes [9, 9]
    ∧ some ([] : Bytes) ≠ some ([1, 2, 3] : Bytes)
    ∧ some ([] : Bytes) ∉
        atomicSaveFailureOutcomes (some [1, 2, 3]) [9, 9] := by
  refine ⟨?_, by decide, by decide⟩
  simp [saveFailureOutcomes]

/-- Claim C2 amended: `Save` on an initialized wallet performs one direct
truncating write that replaces the wallet file with the marshalled store —
no temporary file, no rename — and whenever the new byte string is
non-empty and the old contents are, a failure mid-write admits an outcome
(the truncated file) that destroys the previously persisted contents. -/
theorem C2_save_not_atomic (disk : Option DiskFile) (w : WalletState)
    (s : localWalletStore) (sd : Bytes) (mkv : MasterKey)
    (old wsBytes : Bytes)
    (hws : w.ws = some s) (hsd : w.seed = some sd) (hmk : w.mk = some mkv)
    (hold : old ≠ []) (hnew : wsBytes ≠ []) :
    Save disk w = (some (Except.ok s), Except.ok ())
    ∧ ∃ o, o ∈ saveFailureOutcomes wsBytes ∧ o ≠ some old := by
  constructor
  · simp [Save, hws, hsd, hmk]
  · refine ⟨some [], ?_, fun hco => hold (Option.some.inj hco).symm⟩
    simp only [saveFailureOutcomes, List.mem_map, List.mem_range]
    exact ⟨0, List.length_pos.mpr hnew, rfl⟩

/-- Witness for `C2_save_not_atomic`: the initialized wallet `w0`, old
contents `[1, 2, 3]`, new bytes `[9, 9]`. -/
theorem C2_save_not_atomic_witness :
    Save none w0 = (some (Except.ok s0), Except.ok ())
    ∧ ∃ o, o ∈ saveFailureOutcomes [9, 9] ∧ o ≠ some [1, 2, 3] :=
  C2_save_not_atomic none w0 s0 [9] [9] [1, 2, 3] [9, 9]
    rfl rfl rfl (by decide) (by decide)

/-! ## C5 — Reload with a missing store file -/

/-- Claim C5 fails on the code: on the in-memory-initialized wallet `w0`
with no store file on disk, `Reload` returns success but the facade is
still initialized — the missing file leaves the prior in-memory state in
place rather than leaving the facade uninitialized. -/
theorem C5_counterexample :
    (Reload env0 (some "pw") none w0).2.2 = Except.ok ()
    ∧ IsInitialized (Reload env0 (some "pw") none w0).1 = true :=
  ⟨rfl, rfl⟩

/-- Claim C5 amended: when the store file does not exist, `loadStore` (and
so `Reload` and the construction-time load of `NewLocalWallet`) returns no
error and leaves the in-memory state exactly as it was — so a facade that
was uninitialized (in particular a freshly constructed one) remains
uninitialized, while one holding key material keeps it. -/
theorem C5_missing_file_noop (env : CryptoEnv) (pw : Option Password)
    (w : WalletState) :
    loadStore env pw none w = (w, none, Except.ok false)
    ∧ Reload env pw none w = (w, none, Except.ok ())
    ∧ NewLocalWallet env pw none = Except.ok freshWallet :=
  ⟨rfl, rfl, rfl⟩

/-! ## C7 — no encryption-scheme validation on load -/

/-- Claim C7 fails on the code: a store whose scheme name is
`"totally-bogus"` and version `999` — supported by no encryptor of this
system — loads without any `UnsupportedScheme` error: deserialization
accepts it and the crypto blob is handed straight to the decryptor, which
here accepts it, so the load returns full success. -/
theorem C7_counterexample :
    (loadStore env0 (some "pw") (some (Except.ok sBogus))
        freshWallet).2.2 = Except.ok true
    ∧ (loadStore env0 (some "pw") (some (Except.ok sBogus))
        freshWallet).1.seed = some [1, 2] :=
  ⟨rfl, rfl⟩

/-- Claim C7 amended: loading never inspects the store's scheme name or
version — relabelling them arbitrarily changes neither the load's result
nor the seed (or master key) it installs; the encrypted blob is always
passed to the decryptor, whose failure is the only error an unrecognized
scheme can surface as. -/
theorem C7_no_scheme_validation (env : CryptoEnv) (pw : Option Password)
    (s : localWalletStore) (w : WalletState) (n : String) (v : Nat) :
    (loadStore env pw
        (some (Except.ok { s with Name := n, Version := v })) w).2.2 =
      (loadStore env pw (some (Except.ok s)) w).2.2
    ∧ (loadStore env pw
        (some (Except.ok { s with Name := n, Version := v })) w).1.seed =
      (loadStore env pw (some (Except.ok s)) w).1.seed
    ∧ (loadStore env pw
        (some (Except.ok { s with Name := n, Version := v })) w).1.mk =
      (loadStore env pw (some (Except.ok s)) w).1.mk := by
  obtain ⟨c, n0, v0, u, d, wi, na⟩ := s
  by_cases hdp : d = "" <;>
    cases pw with
    | none => simp [loadStore, hdp]
    | some password =>
      cases hd : env.decrypt c password with
      | none => simp [loadStore, hdp, hd]
      | some seed =>
        cases hm : env.newMaster seed with
        | none => simp [loadStore, hdp, hd, hm]
        | some mk => simp [loadStore, hdp, hd, hm]

/-! ## C3 — recovery is deterministic -/

/-- `initializeStore` assigns the seed and the master key before any
fallible step, directly from the pure derivation functions: whatever the
password fetch, the uuid draw or the encryption outcome, the resulting
seed is `newSeed mnemonic` and the resulting master key is exactly what
`newMaster` returns on it. -/
theorem initializeStore_seed_mk (env : CryptoEnv) (pw : Option Password)
    (u : Nat) (path : String) (idx : Nat) (m : String) (w : WalletState) :
    (initializeStore env pw u path idx m w).1.seed = some (env.newSeed m)
    ∧ (initializeStore env pw u path idx m w).1.mk
        = env.newMaster (env.newSeed m) := by
  cases hm : env.newMaster (env.newSeed m) with
  | none => simp [initializeStore, hm]
  | some mkv =>
    cases pw with
    | none => simp [initializeStore, hm]
    | some password =>
      cases he : env.encrypt (env.newSeed m) password with
      | none => simp [initializeStore, hm, he]
      | some es => simp [initializeStore, hm, he]

/-- Claim C3: on a fresh facade, `Recover` with a valid mnemonic always
produces the seed `newSeed m` and the master key `newMaster (newSeed m)` —
pure functions of the mnemonic alone — so any two runs of `Recover`, with
any password-manager outcomes and uuid draws, and any run of `Initialize`
whose generated mnemonic is `m`, agree on the seed and the master key, and
hence on any node key or address derived from them. -/
theorem C3_recover_deterministic (env : CryptoEnv)
    (pw pw' pwI : Option Password) (u u' uI : Nat) (path : String)
    (idx : Nat) (m : String) (h : env.isMnemonicValid m = true) :
    (Recover env pw u path idx m freshWallet).1.seed = some (env.newSeed m)
    ∧ (Recover env pw u path idx m freshWallet).1.mk
        = env.newMaster (env.newSeed m)
    ∧ (Recover env pw u path idx m freshWallet).1.seed
        = (Recover env pw' u' path idx m freshWallet).1.seed
    ∧ (Recover env pw u path idx m freshWallet).1.mk
        = (Recover env pw' u' path idx m freshWallet).1.mk
    ∧ (Recover env pw u path idx m freshWallet).1.seed
        = (Initialize env pwI uI (some m) path idx freshWallet).1.seed
    ∧ (Recover env pw u path idx m freshWallet).1.mk
        = (Initialize env pwI uI (some m) path idx freshWallet).1.mk
    ∧ ∀ deriveAddr : Option MasterKey → String → Nat → Nat,
        deriveAddr (Recover env pw u path idx m freshWallet).1.mk path idx
          = deriveAddr
              (Initialize env pwI uI (some m) path idx freshWallet).1.mk
              path idx := by
  have hR : ∀ (pw2 : Option Password) (u2 : Nat),
      Recover env pw2 u2 path idx m freshWallet
        = initializeStore env pw2 u2 path idx m freshWallet := by
    intro pw2 u2
    simp [Recover, IsInitialized, freshWallet, h]
  have hfw : IsInitialized freshWallet = false := rfl
  have hI : (Initialize env pwI uI (some m) path idx freshWallet).1
      = (initializeStore env pwI uI path idx m freshWallet).1 := by
    cases hres : initializeStore env pwI uI path idx m freshWallet with
    | mk w1 r => cases r <;> simp [Initialize, hfw, hres]
  have hS := fun pw2 u2 =>
    initializeStore_seed_mk env pw2 u2 path idx m freshWallet
  refine ⟨?_, ?_, ?_, ?_, ?_, ?_, ?_⟩
  · rw [hR]; exact (hS pw u).1
  · rw [hR]; exact (hS pw u).2
  · rw [hR, hR]; exact (hS pw u).1.trans (hS pw' u').1.symm
  · rw [hR, hR]; exact (hS pw u).2.trans (hS pw' u').2.symm
  · rw [hR, hI]; exact (hS pw u).1.trans (hS pwI uI).1.symm
  · rw [hR, hI]; exact (hS pw u).2.trans (hS pwI uI).2.symm
  · intro deriveAddr
    rw [hR, hI, (hS pw u).2, (hS pwI uI).2]

/-- Witness for `C3_recover_deterministic`: the concrete environment
`env0`, mnemonic `"words"`, differing password outcomes and uuid draws. -/
theorem C3_recover_deterministic_witness :
    env0.isMnemonicValid "words" = true
    ∧ (Recover env0 (some "pw") 1 "m/44'/60'/0'/0/%d" 0 "words"
        freshWallet).1.seed = some (env0.newSeed "words")
    ∧ (Recover env0 (some "pw") 1 "m/44'/60'/0'/0/%d" 0 "words"
        freshWallet).1.mk
      = (Initialize env0 (some "other") 2 (some "words")
          "m/44'/60'/0'/0/%d" 0 freshWallet).1.mk := by
  have h := C3_recover_deterministic env0 (some "pw") (some "xx")
    (some "other") 1 9 2 "m/44'/60'/0'/0/%d" 0 "words" (by decide)
  exact ⟨by decide, h.1, h.2.2.2.2.2.1⟩

/-! ## C4 — rejection paths leave the state unchanged -/

/-- Claim C4: on an already-initialized wallet both `Initialize` and
`Recover` fail with the already-initialized error and return the state
untouched; and `Recover` with a mnemonic failing BIP-39 validation leaves
the state untouched and fails — with the invalid-mnemonic error whenever
the already-initialized check (which runs first) does not fire. -/
theorem C4_rejections_preserve_state (env : CryptoEnv)
    (pw : Option Password) (u : Nat) (gm : Option String) (path : String)
    (idx : Nat) (m : String) (w : WalletState) :
    (IsInitialized w = true →
      Initialize env pw u gm path idx w
          = (w, Except.error "Wallet is already initialized")
      ∧ Recover env pw u path idx m w
          = (w, Except.error "Wallet is already initialized"))
    ∧ (env.isMnemonicValid m = false →
        (Recover env pw u path idx m w).1 = w
        ∧ ∃ e, (Recover env pw u path idx m w).2 = Except.error e
          ∧ (IsInitialized w = false → e = "Invalid mnemonic")) := by
  constructor
  · intro h
    exact ⟨by simp [Initialize, h], by simp [Recover, h]⟩
  · intro hm
    by_cases h : IsInitialized w
    · refine ⟨by simp [Recover, h], "Wallet is already initialized",
        by simp [Recover, h], fun hf => ?_⟩
      simp [h] at hf
    · exact ⟨by simp [Recover, h, hm], "Invalid mnemonic",
        by simp [Recover, h, hm], fun _ => rfl⟩

/-- Witness for `C4_rejections_preserve_state`: the initialized wallet
`w0` rejects both operations unchanged, and a fresh wallet rejects the
invalid mnemonic `"bad"`. -/
theorem C4_rejections_preserve_state_witness :
    IsInitialized w0 = true
    ∧ Initialize env0 (some "pw") 1 (some "words") "p" 0 w0
        = (w0, Except.error "Wallet is already initialized")
    ∧ env0.isMnemonicValid "bad" = false
    ∧ (Recover env0 (some "pw") 1 "p" 0 "bad" freshWallet).1
        = freshWallet := by
  refine ⟨rfl, ((C4_rejections_preserve_state env0 (some "pw") 1
    (some "words") "p" 0 "words" w0).1 rfl).1, by decide, ?_⟩
  exact ((C4_rejections_preserve_state env0 (some "pw") 1 (some "words")
    "p" 0 "bad" freshWallet).2 (by decide)).1

/-! ## C6 — legacy derivation-path upgrade is in-memory only -/

/-- Claim C6: loading a persisted store whose `derivationPath` field is
absent (the empty string after decoding) installs, in memory, the store
with the path defaulted to `DefaultNodeKeyPath` — in every branch of the
load, including the failure ones — and the load leaves the disk exactly as
it found it: the upgraded record is never written back. -/
theorem C6_legacy_path_upgrade (env : CryptoEnv) (pw : Option Password)
    (s : localWalletStore) (w : WalletState) (h : s.DerivationPath = "") :
    (loadStore env pw (some (Except.ok s)) w).1.ws
        = some { s with DerivationPath := DefaultNodeKeyPath }
    ∧ (loadStore env pw (some (Except.ok s)) w).2.1
        = some (Except.ok s) := by
  cases pw with
  | none => simp [loadStore, h]
  | some password =>
    cases hd : env.decrypt s.Crypto password with
    | none => simp [loadStore, h, hd]
    | some seed =>
      cases hm : env.newMaster seed with
      | none => simp [loadStore, h, hd, hm]
      | some mkv => simp [loadStore, h, hd, hm]

/-- Witness for `C6_legacy_path_upgrade`: `s0` with its path erased loads
with the default path in memory and an untouched disk. -/
theorem C6_legacy_path_upgrade_witness :
    (loadStore env0 (some "pw")
        (some (Except.ok ({ s0 with DerivationPath := "" })))
        freshWallet).1.ws
      = some { ({ s0 with DerivationPath := "" } : localWalletStore) with
          DerivationPath := DefaultNodeKeyPath }
    ∧ (loadStore env0 (some "pw")
        (some (Except.ok ({ s0 with DerivationPath := "" })))
        freshWallet).2.1
      = some (Except.ok ({ s0 with DerivationPath := "" })) :=
  C6_legacy_path_upgrade env0 (some "pw")
    ({ s0 with DerivationPath := "" }) freshWallet rfl

/-! ## C8 — Delete is idempotent at the filesystem interface -/

/-- Claim C8: `Delete` succeeds on any disk state — in particular when the
wallet file does not exist — and a second `Delete` right after a first one
succeeds as well. -/
theorem C8_delete_idempotent (disk : Option DiskFile) (w : WalletState) :
    (Delete disk w).2.2 = Except.ok ()
    ∧ (Delete (Delete disk w).2.1 w).2.2 = Except.ok ()
    ∧ Delete none w = (w, none, Except.ok ()) := by
  cases disk <;> exact ⟨rfl, rfl, rfl⟩

/-! ## C9 — Delete touches only the disk -/

/-- Claim C9: `Delete` removes only the on-disk file: the wallet's
in-memory state — store record, seed, master key, node-key cache and
validator-key cache — is returned exactly as it was. -/
theorem C9_delete_frame (disk : Option DiskFile) (w : WalletState) :
    (Delete disk w).1 = w
    ∧ (Delete disk w).1.ws = w.ws
    ∧ (Delete disk w).1.seed = w.seed
    ∧ (Delete disk w).1.mk = w.mk
    ∧ (Delete disk w).1.nodeKey = w.nodeKey
    ∧ (Delete disk w).1.validatorKeys = w.validatorKeys := by
  cases disk <;> exact ⟨rfl, rfl, rfl, rfl, rfl, rfl⟩

/-! ## C10 — TestRecovery overwrites without a guard, leaving no crypto -/

/-- Claim C10: `TestRecovery` with a valid mnemonic succeeds on every
wallet state — it performs no already-initialized check — and overwrites
the in-memory seed, master key and store record with ones derived from the
mnemonic; the store it installs has an empty `Crypto` field, so the
replacement state carries only plaintext key material. -/
theorem C10_test_recovery_overwrites (env : CryptoEnv) (u : Nat)
    (path : String) (idx : Nat) (m : String) (w : WalletState)
    (mkv : MasterKey) (hm : env.isMnemonicValid m = true)
    (hmk : env.newMaster (env.newSeed m) = some mkv) :
    TestRecovery env u path idx m w =
      ({ w with
         seed := some (env.newSeed m),
         mk := some mkv,
         ws := some (⟨none, env.encName, env.encVersion, u, path, idx, 0⟩ :
           localWalletStore) },
        Except.ok ()) := by
  simp [TestRecovery, hm, hmk]

/-- Witness for `C10_test_recovery_overwrites`: the already-initialized
wallet `w0` is overwritten without complaint. -/
theorem C10_test_recovery_overwrites_witness :
    IsInitialized w0 = true
    ∧ env0.isMnemonicValid "words" = true
    ∧ TestRecovery env0 3 "path" 1 "words" w0 =
        ({ w0 with
           seed := some (env0.newSeed "words"),
           mk := some [5],
           ws := some (⟨none, env0.encName, env0.encVersion, 3, "path",
             1, 0⟩ : localWalletStore) },
          Except.ok ()) :=
  ⟨rfl, by decide,
    C10_test_recovery_overwrites env0 3 "path" 1 "words" w0 [5]
      (by decide) rfl⟩

end Smartnode
